import Mathlib

/-!
Shallow embedding of the supervisory watchdog in
`RealtimeSTT_server/enhanced_recorder.py` (class `RecorderManager`) and its
near-duplicate variant `RealtimeSTT_server/recorder_thread_patch.py`
(`enhanced_recorder_thread`), plus the language-detection helper in
`RealtimeSTT_server/language_detector.py`.

Modelling conventions:
- Wall-clock times are `Int` (seconds); sleep durations are `ℚ`.
- The opaque speech engine is an environment oracle: each call that can
  succeed, fail, time out or raise is given its outcome as an argument.
- Exceptions caught by the Python code are modelled by the corresponding
  `Bool`/`Option` oracles; functions are total exactly because the source
  catches every exception on the modelled paths.
- Methods that mutate `self` are state-passing functions; methods that also
  perform engine calls additionally return the list of `EAction`s performed,
  so that ordering claims can be stated.
-/

/-- Outcome of one timeout-bounded unit of work in `RecorderManager`:
`future.result(timeout=...)` returns, raises `TimeoutError`, or raises
another exception. -/
inductive WorkOutcome
  | completed
  | timedOut
  | failed
deriving Repr, DecidableEq

/-- Engine-level actions performed by the recovery procedures, in order. -/
inductive EAction
  | abortA
  | drainA
  | sleepA (secs : ℚ)
  | shutdownA
  | initA
deriving Repr, DecidableEq

/-- Resource-release events of `RecorderManager.cleanup`. -/
inductive REvent
  | engineShutdownEv
  | executorShutdownEv
deriving Repr, DecidableEq

/-! ## `enhanced_recorder.py` — class `RecorderManager` -/

/-- `self.transcription_timeout = 30.0` (enhanced_recorder.py line 24). -/
def transcription_timeout : Int := 30

/-- `self.health_check_interval = 10.0` (line 25). -/
def health_check_interval : Int := 10

/-- `self.max_consecutive_failures = 3` (line 26). -/
def max_consecutive_failures : Nat := 3

/-- Mutable fields of `RecorderManager` used by the supervisory logic.
`recorder` is whether `self.recorder` is a live object (not `None`). -/
structure RMState where
  recorder : Bool
  stop_recorder : Bool
  consecutive_failures : Nat
  last_activity_time : Int
  is_processing : Bool
deriving Repr, DecidableEq

/-- State of `RecorderManager` right after `__init__` at time `t0`. -/
def rm_initial (t0 : Int) : RMState :=
  { recorder := false, stop_recorder := false, consecutive_failures := 0,
    last_activity_time := t0, is_processing := false }

/-- `RecorderManager.initialize_recorder` (lines 32-47): one construction
attempt; on success stores the engine and resets `consecutive_failures`,
on exception increments `consecutive_failures`. `ok` is the outcome of the
`AudioToTextRecorder(**config)` construction. -/
def initialize_recorder (ok : Bool) (s : RMState) : Bool × RMState :=
  if ok = true then
    (true, { s with recorder := true, consecutive_failures := 0 })
  else
    (false, { s with consecutive_failures := s.consecutive_failures + 1 })

/-- The `try:` prologue of `process_text_with_timeout` (lines 52-53):
`self.is_processing = True; self.last_activity_time = time.time()`. -/
def ptwt_entry (now : Int) (s : RMState) : RMState :=
  { s with is_processing := true, last_activity_time := now }

/-- `RecorderManager.process_text_with_timeout` (lines 49-71). The `finally:`
clause always restores `is_processing := false`, so each branch below already
includes it. Returns the boolean handed back to the caller. -/
def process_text_with_timeout (outcome : WorkOutcome) (now : Int) (s : RMState) :
    Bool × RMState :=
  let s1 := ptwt_entry now s
  match outcome with
  | WorkOutcome.completed =>
      (true, { s1 with consecutive_failures := 0, is_processing := false })
  | WorkOutcome.timedOut =>
      (false, { s1 with consecutive_failures := s1.consecutive_failures + 1,
                        is_processing := false })
  | WorkOutcome.failed =>
      (false, { s1 with consecutive_failures := s1.consecutive_failures + 1,
                        is_processing := false })

/-- `RecorderManager.recover_recorder` (lines 73-92). If a recorder is live,
runs `abort`, `clear_audio_queue`, `sleep(1.0)`, `shutdown`, `sleep(2.0)`,
then a single `initialize_recorder` attempt. `preRaises` is whether one of
the engine calls in the pre-block raises (caught, returns `False`, state
untouched); `initOk` is the outcome of the one construction attempt. Also
returns the engine-action trace performed. -/
def rm_recover (preRaises : Bool) (initOk : Bool) (s : RMState) :
    Bool × RMState × List EAction :=
  if s.recorder = true then
    if preRaises = true then (false, s, [])
    else
      ((initialize_recorder initOk s).1, (initialize_recorder initOk s).2,
       [EAction.abortA, EAction.drainA, EAction.sleepA 1,
        EAction.shutdownA, EAction.sleepA 2, EAction.initA])
  else
    ((initialize_recorder initOk s).1, (initialize_recorder initOk s).2,
     [EAction.initA])

/-- `RecorderManager.health_check` (lines 94-108). The method only reads
`self`; it is embedded as returning the verdict together with the (unchanged)
state so that absence of mutation is part of the statement. -/
def health_check (now : Int) (s : RMState) : Bool × RMState :=
  if s.is_processing = true ∧ transcription_timeout < now - s.last_activity_time then
    (false, s)
  else if max_consecutive_failures ≤ s.consecutive_failures then
    (false, s)
  else (true, s)

/-- `RecorderManager.cleanup` (lines 171-178): inside one `try`, shut the
engine down if live, then shut the executor down; any exception is caught and
logged, skipping the remaining steps. Returns the releases performed. -/
def rm_cleanup (engineRaises execRaises : Bool) (s : RMState) : List REvent :=
  if s.recorder = true then
    if engineRaises = true then []
    else if execRaises = true then [REvent.engineShutdownEv]
    else [REvent.engineShutdownEv, REvent.executorShutdownEv]
  else if execRaises = true then []
  else [REvent.executorShutdownEv]

/-- Per-iteration environment for `RecorderManager.run`: the wall-clock time
read at the top of the cycle, the outcome of the submitted unit of work, and
the recovery oracles for the (at most one) `recover_recorder` call reachable
from the health-check branch and from the work-failure branch. -/
structure RMEnv where
  now : Int
  work : WorkOutcome
  hcRecPre : Bool
  hcRecInit : Bool
  wkRecPre : Bool
  wkRecInit : Bool

/-- Result of one iteration of the `while` loop of `RecorderManager.run`:
the state, the updated `last_health_check`, whether the loop continues
(`false` = `break`), the values of `consecutive_failures` observed at each
`recover_recorder` invocation, and whether some invocation returned `False`. -/
structure RMIter where
  s : RMState
  lastHC : Int
  cont : Bool
  recAt : List Nat
  recFailed : Bool

/-- The work phase of one `run` iteration (lines 153-161): submit one unit of
work; on failure, if the failure counter reached the threshold, attempt
recovery and `break` if it fails. -/
def rm_workPhase (e : RMEnv) (s : RMState) (lastHC : Int) (recAt0 : List Nat) :
    RMIter :=
  if (process_text_with_timeout e.work e.now s).1 = true then
    ⟨(process_text_with_timeout e.work e.now s).2, lastHC, true, recAt0, false⟩
  else if max_consecutive_failures ≤
      (process_text_with_timeout e.work e.now s).2.consecutive_failures then
    if (rm_recover e.wkRecPre e.wkRecInit
          (process_text_with_timeout e.work e.now s).2).1 = true then
      ⟨(rm_recover e.wkRecPre e.wkRecInit
          (process_text_with_timeout e.work e.now s).2).2.1, lastHC, true,
        recAt0 ++ [(process_text_with_timeout e.work e.now s).2.consecutive_failures],
        false⟩
    else
      ⟨(rm_recover e.wkRecPre e.wkRecInit
          (process_text_with_timeout e.work e.now s).2).2.1, lastHC, false,
        recAt0 ++ [(process_text_with_timeout e.work e.now s).2.consecutive_failures],
        true⟩
  else ⟨(process_text_with_timeout e.work e.now s).2, lastHC, true, recAt0, false⟩

/-- One full iteration of the `while` loop of `RecorderManager.run`
(lines 141-164): periodic health check (with recovery and possible `break`
on an unhealthy verdict), then the work phase. -/
def rm_iter (e : RMEnv) (s : RMState) (lastHC : Int) : RMIter :=
  if health_check_interval < e.now - lastHC then
    if (health_check e.now s).1 = true then
      rm_workPhase e s e.now []
    else
      if (rm_recover e.hcRecPre e.hcRecInit s).1 = true then
        rm_workPhase e (rm_recover e.hcRecPre e.hcRecInit s).2.1 e.now
          [s.consecutive_failures]
      else
        ⟨(rm_recover e.hcRecPre e.hcRecInit s).2.1, lastHC, false,
          [s.consecutive_failures], true⟩
  else rm_workPhase e s lastHC []

/-- Accumulated result of running the `while` loop over a sequence of
iteration environments. -/
structure RMLoop where
  s : RMState
  recAt : List Nat

/-- The `while not self.stop_recorder` loop of `RecorderManager.run`; the
environment list is the sequence of cycles executed before the stop flag is
observed (exhaustion = stop requested), and a `break` ends the loop early. -/
def rm_loop : List RMEnv → RMState → Int → RMLoop
  | [], s, _ => ⟨s, []⟩
  | e :: rest, s, lastHC =>
    if (rm_iter e s lastHC).cont = true then
      ⟨(rm_loop rest (rm_iter e s lastHC).s (rm_iter e s lastHC).lastHC).s,
        (rm_iter e s lastHC).recAt ++
          (rm_loop rest (rm_iter e s lastHC).s (rm_iter e s lastHC).lastHC).recAt⟩
    else ⟨(rm_iter e s lastHC).s, (rm_iter e s lastHC).recAt⟩

/-- `RecorderManager.run` (lines 131-169): initial `initialize_recorder`
(returning early — before the `try/finally` — when it fails), then the
monitored loop, then `cleanup` in the `finally`. Returns the final state and
the cleanup releases performed. -/
def rm_run (initOk : Bool) (t0 : Int) (envs : List RMEnv)
    (engineRaises execRaises : Bool) : RMState × List REvent :=
  if (initialize_recorder initOk (rm_initial t0)).1 = true then
    ((rm_loop envs (initialize_recorder initOk (rm_initial t0)).2 t0).s,
     rm_cleanup engineRaises execRaises
       (rm_loop envs (initialize_recorder initOk (rm_initial t0)).2 t0).s)
  else ((initialize_recorder initOk (rm_initial t0)).2, [])

/-! ## `recorder_thread_patch.py` — `enhanced_recorder_thread` -/

/-- `transcription_timeout = 20.0` (recorder_thread_patch.py line 19). -/
def p_transcription_timeout : Int := 20

/-- `max_consecutive_failures = 3` (line 20). -/
def p_max_consecutive_failures : Nat := 3

/-- Mutable variables of the patch-variant thread: the `recorder` global,
the `consecutive_failures` and `last_activity_time` locals. -/
structure PState where
  recorder : Bool
  consecutive_failures : Nat
  last_activity_time : Int
deriving Repr, DecidableEq

/-- Helper for `initialize_recorder_with_retry` (lines 25-39): the
`for attempt in range(max_retries)` loop, returning success and the init/
backoff action trace. `outcome i` is whether construction attempt `i`
succeeds; `time.sleep(2)` runs only when `attempt < max_retries - 1`. -/
def initRetryAux (outcome : Nat → Bool) : Nat → Nat → Bool × List EAction
  | _, 0 => (false, [])
  | attempt, 1 =>
      if outcome attempt = true then (true, [EAction.initA])
      else (false, [EAction.initA])
  | attempt, remaining + 2 =>
      if outcome attempt = true then (true, [EAction.initA])
      else
        let r := initRetryAux outcome (attempt + 1) (remaining + 1)
        (r.1, EAction.initA :: EAction.sleepA 2 :: r.2)

/-- `initialize_recorder_with_retry` (lines 25-39): up to 3 construction
attempts with a 2-second sleep between consecutive attempts; on the first
success the `recorder` global is assigned. Does not touch
`consecutive_failures`. -/
def initialize_recorder_with_retry (outcome : Nat → Bool) (s : PState) :
    Bool × PState × List EAction :=
  if (initRetryAux outcome 0 3).1 = true then
    (true, { s with recorder := true }, (initRetryAux outcome 0 3).2)
  else (false, s, (initRetryAux outcome 0 3).2)

/-- Patch-variant `recover_recorder` (lines 83-99): if a recorder is live,
`abort`, `clear_audio_queue`, `sleep(1.0)` — no `shutdown`, no second wait —
then `initialize_recorder_with_retry`. An exception in the pre-block is
caught, increments `consecutive_failures` and returns `False`. -/
def patch_recover (preRaises : Bool) (outcome : Nat → Bool) (s : PState) :
    Bool × PState × List EAction :=
  if s.recorder = true then
    if preRaises = true then
      (false, { s with consecutive_failures := s.consecutive_failures + 1 }, [])
    else
      ((initialize_recorder_with_retry outcome s).1,
       (initialize_recorder_with_retry outcome s).2.1,
       EAction.abortA :: EAction.drainA :: EAction.sleepA 1 ::
         (initialize_recorder_with_retry outcome s).2.2)
  else
    ((initialize_recorder_with_retry outcome s).1,
     (initialize_recorder_with_retry outcome s).2.1,
     (initialize_recorder_with_retry outcome s).2.2)

/-- Loop-observable outcome of one submission in the patch variant
(lines 134-154): `transcribe_with_timeout` returns `True` after the
`process_text` callback ran successfully (which reset the counter), the
callback raised (counter already incremented inside the callback),
`transcribe_with_timeout` returned `False` (engine raised), or
`future.result` raised `FutureTimeoutError`. -/
inductive PWork
  | completed
  | callbackError
  | returnedFalse
  | timedOut
deriving Repr, DecidableEq

/-- Per-iteration environment for the patch-variant loop: wall-clock time,
submission outcome, and oracles for the (at most one) `recover_recorder`
call of the iteration. -/
structure PEnv where
  now : Int
  work : PWork
  recPre : Bool
  recInit : Nat → Bool

/-- Result of one iteration of the patch-variant `while` loop. -/
structure PIter where
  s : PState
  cont : Bool
  recovers : Nat
  recFailed : Bool

/-- One iteration of the patch-variant loop (lines 114-157): stall check
(recovery, then refresh `last_activity_time` and `continue`), threshold
check (recovery and `continue`), then one submission — where a timeout
immediately triggers another recovery attempt. -/
def p_iter (e : PEnv) (s : PState) : PIter :=
  if p_transcription_timeout < e.now - s.last_activity_time then
    if (patch_recover e.recPre e.recInit s).1 = true then
      ⟨{ (patch_recover e.recPre e.recInit s).2.1 with
           last_activity_time := e.now }, true, 1, false⟩
    else ⟨(patch_recover e.recPre e.recInit s).2.1, false, 1, true⟩
  else if p_max_consecutive_failures ≤ s.consecutive_failures then
    if (patch_recover e.recPre e.recInit s).1 = true then
      ⟨(patch_recover e.recPre e.recInit s).2.1, true, 1, false⟩
    else ⟨(patch_recover e.recPre e.recInit s).2.1, false, 1, true⟩
  else
    match e.work with
    | PWork.completed =>
        ⟨{ s with consecutive_failures := 0, last_activity_time := e.now },
         true, 0, false⟩
    | PWork.callbackError =>
        ⟨{ s with consecutive_failures := s.consecutive_failures + 1 },
         true, 0, false⟩
    | PWork.returnedFalse =>
        ⟨{ s with consecutive_failures := s.consecutive_failures + 1 },
         true, 0, false⟩
    | PWork.timedOut =>
        if (patch_recover e.recPre e.recInit
              { s with consecutive_failures := s.consecutive_failures + 1 }).1
            = true then
          ⟨(patch_recover e.recPre e.recInit
              { s with consecutive_failures := s.consecutive_failures + 1 }).2.1,
            true, 1, false⟩
        else
          ⟨(patch_recover e.recPre e.recInit
              { s with consecutive_failures := s.consecutive_failures + 1 }).2.1,
            false, 1, true⟩

/-- The patch-variant `while not stop_recorder` loop over a sequence of
cycle environments; returns the final state and the total number of
`recover_recorder` invocations. -/
def p_loop : List PEnv → PState → PState × Nat
  | [], s => (s, 0)
  | e :: rest, s =>
    if (p_iter e s).cont = true then
      ((p_loop rest (p_iter e s).s).1,
        (p_iter e s).recovers + (p_loop rest (p_iter e s).s).2)
    else ((p_iter e s).s, (p_iter e s).recovers)

/-! ## `language_detector.py` — class `LanguageDetector` -/

/-- Fields of `LanguageDetector` relevant to detection and validation:
whether SpeechBrain imported, whether the model loaded (`self.lang_id`),
and `self.last_confidence`. -/
structure LDState where
  speechbrain_available : Bool
  lang_id_loaded : Bool
  last_confidence : ℚ
deriving Repr, DecidableEq

/-- The `lang_mapping` dictionary lookup with default (lines 71-79):
`lang_mapping.get(lang_code, lang_code)`. -/
def lang_mapping_get (lang_code : String) : String :=
  if lang_code = "it" then "it"
  else if lang_code = "en" then "en"
  else if lang_code = "es" then "es"
  else if lang_code = "fr" then "fr"
  else if lang_code = "de" then "de"
  else lang_code

/-- `LanguageDetector.detect_language` (lines 40-85). `classify` is the
outcome of the audio-conversion/classification block inside the `try`:
`none` when some step raises (before `self.last_confidence` is assigned —
the statements after that assignment cannot raise), otherwise the raw
language code and confidence extracted from the prediction. -/
def detect_language (classify : Option (String × ℚ)) (s : LDState) :
    (Option String × ℚ) × LDState :=
  if s.lang_id_loaded = false ∨ s.speechbrain_available = false then
    ((none, 0), s)
  else
    match classify with
    | none => ((none, 0), s)
    | some (code, conf) =>
        ((some (lang_mapping_get code), conf),
         { s with last_confidence := conf })

/-- `LanguageDetector.validate_transcription_language` (lines 87-112).
Reads `self.last_confidence` (not a confidence parameter); `text` is unused
by the logic. `if confidence_threshold and ...` is Python truthiness of the
float threshold. -/
def validate_transcription_language (s : LDState) (text : String)
    (expected_language : String) (detected_language : Option String)
    (confidence_threshold : ℚ) : Bool :=
  match detected_language with
  | none => true
  | some d =>
    if confidence_threshold ≠ 0 ∧ s.last_confidence < confidence_threshold then
      true
    else if d ≠ expected_language then false
    else true

/-! ## Sample inputs used by witnesses and counterexamples -/

/-- A live, freshly-reset `RecorderManager` state. -/
def sampleRM : RMState :=
  { recorder := true, stop_recorder := false, consecutive_failures := 0,
    last_activity_time := 0, is_processing := false }

/-- A `run`-loop cycle at time 1 whose unit of work times out and whose
recovery oracles succeed. -/
def sampleEnvT : RMEnv :=
  { now := 1, work := WorkOutcome.timedOut, hcRecPre := false,
    hcRecInit := true, wkRecPre := false, wkRecInit := true }

/-- A live patch-variant state with no failures yet. -/
def sampleP : PState :=
  { recorder := true, consecutive_failures := 0, last_activity_time := 0 }

/-- A patch-variant cycle at time `t` whose submission times out and whose
recovery oracles succeed. -/
def pEnvAt (t : Int) : PEnv :=
  { now := t, work := PWork.timedOut, recPre := false, recInit := fun _ => true }

/-! ## Helper lemmas -/

/-- `initialize_recorder` succeeds exactly when the construction does. -/
theorem initialize_recorder_fst (ok : Bool) (s : RMState) :
    (initialize_recorder ok s).1 = ok := by
  cases ok <;> simp [initialize_recorder]

/-- A successful `initialize_recorder` resets the failure counter. -/
theorem initialize_recorder_ok_failures (ok : Bool) (s : RMState)
    (h : (initialize_recorder ok s).1 = true) :
    (initialize_recorder ok s).2.consecutive_failures = 0 := by
  cases ok <;> simp_all [initialize_recorder]

/-- `recover_recorder` (RecorderManager) never touches `is_processing`. -/
theorem rm_recover_is_processing (p i : Bool) (s : RMState) :
    (rm_recover p i s).2.1.is_processing = s.is_processing := by
  obtain ⟨rec, st, cf, lat, ip⟩ := s
  cases rec <;> cases p <;> cases i <;> simp [rm_recover, initialize_recorder]

/-- `recover_recorder` (RecorderManager) never clears the `recorder` field. -/
theorem rm_recover_recorder_mono (p i : Bool) (s : RMState)
    (h : s.recorder = true) : (rm_recover p i s).2.1.recorder = true := by
  obtain ⟨rec, st, cf, lat, ip⟩ := s
  cases rec <;> cases p <;> cases i <;>
    simp_all [rm_recover, initialize_recorder]

/-- A successful `recover_recorder` (RecorderManager) leaves the failure
counter at 0, because it returns the result of `initialize_recorder`. -/
theorem rm_recover_ok_failures (p i : Bool) (s : RMState)
    (h : (rm_recover p i s).1 = true) :
    (rm_recover p i s).2.1.consecutive_failures = 0 := by
  obtain ⟨rec, st, cf, lat, ip⟩ := s
  cases rec <;> cases p <;> cases i <;>
    simp_all [rm_recover, initialize_recorder]

/-- The health check passes whenever the loop is between units of work and
the failure counter is below the threshold. -/
theorem health_check_ok_of (now : Int) (s : RMState)
    (h1 : s.consecutive_failures < max_consecutive_failures)
    (h2 : s.is_processing = false) : (health_check now s).1 = true := by
  have hc1 : ¬(s.is_processing = true ∧
      transcription_timeout < now - s.last_activity_time) := by
    simp [h2]
  have hc2 : ¬(max_consecutive_failures ≤ s.consecutive_failures) := by omega
  simp [health_check, hc1, hc2]


/-! ## Claim theorems -/

/-- Claim C1 (code_bug evidence): in the patch variant, a `recover_recorder`
call that succeeds (live recorder, no exception in the pre-block, engine
reinitialization succeeding on the first attempt) returns `True` yet leaves
`consecutive_failures` at its prior value 3 instead of resetting it to 0 —
`initialize_recorder_with_retry` never touches the counter. -/
theorem patch_recover_success_leaves_counter :
    (patch_recover false (fun _ => true)
        { recorder := true, consecutive_failures := 3,
          last_activity_time := 0 }).1 = true ∧
    (patch_recover false (fun _ => true)
        { recorder := true, consecutive_failures := 3,
          last_activity_time := 0 }).2.1.consecutive_failures = 3 := by
  constructor <;> rfl

/-- Claim C5: `health_check` returns the unhealthy verdict exactly when the
loop is mid-work past the transcription timeout or the failure counter has
reached the threshold, and it returns its state component unchanged. -/
theorem health_check_characterization (now : Int) (s : RMState) :
    ((health_check now s).1 = false ↔
      ((s.is_processing = true ∧
          transcription_timeout < now - s.last_activity_time) ∨
        max_consecutive_failures ≤ s.consecutive_failures)) ∧
    (health_check now s).2 = s := by
  unfold health_check
  constructor
  · split
    · simp_all
    · split <;> simp_all
  · split
    · rfl
    · split <;> rfl

/-- Claim C7 (amended): `process_text_with_timeout` reports success as
`True` and both timeout and exception as `False`; the results returned for
a timeout and for an exception are identical, so the caller can distinguish
success from failure but not which failure kind occurred. -/
theorem ptwt_outcome_reporting (now : Int) (s : RMState) :
    (process_text_with_timeout WorkOutcome.completed now s).1 = true ∧
    (process_text_with_timeout WorkOutcome.timedOut now s).1 = false ∧
    (process_text_with_timeout WorkOutcome.failed now s).1 = false ∧
    process_text_with_timeout WorkOutcome.timedOut now s =
      process_text_with_timeout WorkOutcome.failed now s := by
  refine ⟨rfl, rfl, rfl, rfl⟩

/-- Claim C7 counterexample: at a concrete input, the result handed to the
supervisor loop after a timeout equals the result handed back after an
exception — the three outcomes are not reported as mutually distinct
results. -/
theorem ptwt_timeout_exception_same_result :
    process_text_with_timeout WorkOutcome.timedOut 0 sampleRM =
      process_text_with_timeout WorkOutcome.failed 0 sampleRM := rfl

/-- Every branch of `process_text_with_timeout` runs the `finally:` clause,
so the returned state is never mid-work. -/
theorem ptwt_snd_is_processing (o : WorkOutcome) (now : Int) (s : RMState) :
    (process_text_with_timeout o now s).2.is_processing = false := by
  cases o <;> rfl

/-- The state left by the work phase of a `run` iteration is never mid-work. -/
theorem rm_workPhase_is_processing (e : RMEnv) (s : RMState) (lastHC : Int)
    (recAt0 : List Nat) :
    (rm_workPhase e s lastHC recAt0).s.is_processing = false := by
  unfold rm_workPhase
  split
  · exact ptwt_snd_is_processing e.work e.now s
  · split
    · split <;>
        simpa [rm_recover_is_processing] using ptwt_snd_is_processing e.work e.now s
    · exact ptwt_snd_is_processing e.work e.now s

/-- A full `run` iteration started between units of work ends between
units of work: only `process_text_with_timeout` raises `is_processing`,
and it always lowers it again before returning. -/
theorem rm_iter_is_processing (e : RMEnv) (s : RMState) (lastHC : Int)
    (h : s.is_processing = false) :
    (rm_iter e s lastHC).s.is_processing = false := by
  unfold rm_iter
  split
  · split
    · exact rm_workPhase_is_processing e s e.now []
    · split
      · exact rm_workPhase_is_processing e _ e.now _
      · simpa [rm_recover_is_processing] using h
  · exact rm_workPhase_is_processing e s lastHC []

/-- Claim C9: the prologue of `process_text_with_timeout` sets
`is_processing` and stamps `last_activity_time`; on every outcome the
`finally:` clause restores `is_processing = false` before returning, and one
full supervisor-loop iteration started between units of work again ends
between units of work. -/
theorem ptwt_processing_flag_discipline :
    (∀ (o : WorkOutcome) (now : Int) (s : RMState),
      (ptwt_entry now s).is_processing = true ∧
      (ptwt_entry now s).last_activity_time = now ∧
      (process_text_with_timeout o now s).2.is_processing = false ∧
      (process_text_with_timeout o now s).2.last_activity_time = now) ∧
    (∀ (e : RMEnv) (s : RMState) (lastHC : Int),
      s.is_processing = false → (rm_iter e s lastHC).s.is_processing = false) := by
  constructor
  · intro o now s
    refine ⟨rfl, rfl, ?_, ?_⟩ <;> cases o <;> rfl
  · exact rm_iter_is_processing

/-- Claim C9 witness at a concrete iteration. -/
theorem ptwt_processing_flag_discipline_witness :
    (rm_iter sampleEnvT sampleRM 0).s.is_processing = false :=
  ptwt_processing_flag_discipline.2 sampleEnvT sampleRM 0 rfl

/-- Claim C8: with a positive (hence truthy) threshold, the language
validation predicate returns `True` exactly when detection is unavailable,
the stored confidence is below the threshold, or the detected language
matches the expected one — and `False` exactly on a confident mismatch. -/
theorem validate_language_characterization (s : LDState)
    (text expected : String) (detected : Option String) (threshold : ℚ)
    (hth : 0 < threshold) :
    ((validate_transcription_language s text expected detected threshold = true ↔
      (detected = none ∨ s.last_confidence < threshold ∨
        detected = some expected)) ∧
     (validate_transcription_language s text expected detected threshold = false ↔
      ¬(detected = none ∨ s.last_confidence < threshold ∨
        detected = some expected))) := by
  have hne : threshold ≠ 0 := ne_of_gt hth
  cases detected with
  | none => simp [validate_transcription_language]
  | some d =>
    by_cases hconf : s.last_confidence < threshold
    · simp [validate_transcription_language, hne, hconf]
    · by_cases hd : d = expected
      · simp [validate_transcription_language, hne, hconf, hd]
      · simp [validate_transcription_language, hne, hconf, hd]

/-- Claim C8 witness at the spec scenario: expected `en`, detected `it`,
threshold `0.7`; stored confidence `0.9` flags the mismatch, stored
confidence `0.5` is too low to act on. -/
theorem validate_language_characterization_witness :
    validate_transcription_language
        { speechbrain_available := true, lang_id_loaded := true,
          last_confidence := 9/10 } "ciao" "en" (some "it") (7/10) = false ∧
    validate_transcription_language
        { speechbrain_available := true, lang_id_loaded := true,
          last_confidence := 5/10 } "ciao" "en" (some "it") (7/10) = true := by
  constructor
  · exact (validate_language_characterization
      { speechbrain_available := true, lang_id_loaded := true,
        last_confidence := 9/10 } "ciao" "en" (some "it") (7/10)
      (by norm_num)).2.mpr (by
        push_neg
        refine ⟨by simp, ?_, by simp⟩
        show (7 : ℚ)/10 ≤ 9/10
        norm_num)
  · exact (validate_language_characterization
      { speechbrain_available := true, lang_id_loaded := true,
        last_confidence := 5/10 } "ciao" "en" (some "it") (7/10)
      (by norm_num)).1.mpr (Or.inr (Or.inl (by norm_num)))

/-- Claim C10: `detect_language` is total (every exception is caught); it
returns `(none, 0.0)` whenever the model is unavailable or classification
raises, leaving the detector state untouched; it returns a language code
only when classification succeeds, in which case the returned confidence is
also stored in `last_confidence` — the field that the subsequent
`validate_transcription_language` call reads in place of a confidence
argument. -/
theorem detect_language_characterization :
    (∀ (c : Option (String × ℚ)) (s : LDState),
      s.lang_id_loaded = false → detect_language c s = ((none, 0), s)) ∧
    (∀ (c : Option (String × ℚ)) (s : LDState),
      s.speechbrain_available = false → detect_language c s = ((none, 0), s)) ∧
    (∀ s : LDState, detect_language none s = ((none, 0), s)) ∧
    (∀ (code : String) (conf : ℚ) (s : LDState),
      s.lang_id_loaded = true → s.speechbrain_available = true →
      detect_language (some (code, conf)) s =
        ((some (lang_mapping_get code), conf),
         { s with last_confidence := conf })) ∧
    (∀ (lang : String) (conf : ℚ) (c : Option (String × ℚ)) (s s' : LDState),
      detect_language c s = ((some lang, conf), s') →
      s'.last_confidence = conf) ∧
    (∀ (code : String) (conf : ℚ) (s : LDState) (text expected d : String)
        (threshold : ℚ),
      s.lang_id_loaded = true → s.speechbrain_available = true →
      (validate_transcription_language (detect_language (some (code, conf)) s).2
          text expected (some d) threshold = true ↔
        ((threshold ≠ 0 ∧ conf < threshold) ∨ d = expected))) := by
  refine ⟨?_, ?_, ?_, ?_, ?_, ?_⟩
  · intro c s h
    simp [detect_language, h]
  · intro c s h
    simp [detect_language, h]
  · intro s
    unfold detect_language
    split <;> rfl
  · intro code conf s h1 h2
    simp [detect_language, h1, h2]
  · intro lang conf c s s' h
    unfold detect_language at h
    split at h
    · simp at h
    · match c with
      | none => simp at h
      | some (code, cf) =>
        simp only [Prod.mk.injEq, Option.some.injEq] at h
        obtain ⟨⟨-, hcf⟩, hs⟩ := h
        rw [← hs, hcf]
  · intro code conf s text expected d threshold h1 h2
    simp only [detect_language, h1, h2]
    simp only [validate_transcription_language]
    by_cases hth : threshold ≠ 0 ∧ conf < threshold
    · simp [hth]
    · by_cases hd : d = expected
      · simp [hth, hd]
      · simp [hth, hd]

/-- Claim C10 witness: a raised classification at a concrete state yields
`(none, 0.0)` with the state unchanged. -/
theorem detect_language_characterization_witness :
    detect_language none
        { speechbrain_available := true, lang_id_loaded := false,
          last_confidence := 0 } =
      ((none, 0),
       { speechbrain_available := true, lang_id_loaded := false,
         last_confidence := 0 }) :=
  detect_language_characterization.1 none
    { speechbrain_available := true, lang_id_loaded := false,
      last_confidence := 0 } rfl

/-- The retry loop of `initialize_recorder_with_retry` never performs an
engine `shutdown`: its trace consists of construction attempts and backoff
sleeps only. -/
theorem initRetryAux_no_shutdown (oc : Nat → Bool) :
    ∀ (n a : Nat), EAction.shutdownA ∉ (initRetryAux oc a n).2 := by
  intro n
  induction n using Nat.strong_induction_on with
  | _ n ih =>
    intro a
    match n with
    | 0 => simp [initRetryAux]
    | 1 =>
      unfold initRetryAux
      split <;> simp
    | r + 2 =>
      unfold initRetryAux
      split
      · simp
      · intro hmem
        simp only [List.mem_cons] at hmem
        rcases hmem with h | h | h
        · exact absurd h (by simp)
        · exact absurd h (by simp)
        · exact ih (r + 1) (by omega) (a + 1) h

/-- The action trace of `initialize_recorder_with_retry` is that of its
retry loop, whether or not it succeeds. -/
theorem initialize_recorder_with_retry_trace (oc : Nat → Bool) (s : PState) :
    (initialize_recorder_with_retry oc s).2.2 = (initRetryAux oc 0 3).2 := by
  unfold initialize_recorder_with_retry
  split <;> rfl

/-- Claim C4 (amended): called on an initialized engine handle with no
engine exception, `RecorderManager.recover_recorder` performs exactly
abort, drain, 1.0 s wait, shutdown, 2.0 s wait, reinitialize, in that
order; the patch-variant `recover_recorder` performs abort, drain, 1.0 s
wait and then goes straight to the reinitialization retry loop, never
performing a `shutdown`. -/
theorem rm_recover_sequence_order :
    (∀ (initOk : Bool) (s : RMState), s.recorder = true →
      (rm_recover false initOk s).2.2 =
        [EAction.abortA, EAction.drainA, EAction.sleepA 1,
         EAction.shutdownA, EAction.sleepA 2, EAction.initA]) ∧
    (∀ (oc : Nat → Bool) (s : PState), s.recorder = true →
      (patch_recover false oc s).2.2 =
        EAction.abortA :: EAction.drainA :: EAction.sleepA 1 ::
          (initRetryAux oc 0 3).2 ∧
      EAction.shutdownA ∉ (patch_recover false oc s).2.2) := by
  constructor
  · intro initOk s h
    simp [rm_recover, h]
  · intro oc s h
    have htr : (patch_recover false oc s).2.2 =
        EAction.abortA :: EAction.drainA :: EAction.sleepA 1 ::
          (initRetryAux oc 0 3).2 := by
      simp [patch_recover, h, initialize_recorder_with_retry_trace]
    refine ⟨htr, ?_⟩
    rw [htr]
    intro hmem
    simp only [List.mem_cons] at hmem
    rcases hmem with h1 | h1 | h1 | h1
    · exact absurd h1 (by simp)
    · exact absurd h1 (by simp)
    · exact absurd h1 (by simp)
    · exact initRetryAux_no_shutdown oc 3 0 h1

/-- Claim C4 witness: the RecorderManager recovery trace on a live,
exception-free engine. -/
theorem rm_recover_sequence_order_witness :
    (rm_recover false true sampleRM).2.2 =
      [EAction.abortA, EAction.drainA, EAction.sleepA 1,
       EAction.shutdownA, EAction.sleepA 2, EAction.initA] :=
  rm_recover_sequence_order.1 true sampleRM rfl

/-- Claim C4 counterexample: the patch-variant recovery on a live engine
handle (reinitialization succeeding at once) performs abort, drain and the
1.0 s wait but no `shutdown` and no 2.0 s post-shutdown wait — the claimed
six-step sequence is not what this implementation does. -/
theorem patch_recover_skips_shutdown :
    (patch_recover false (fun _ => true) sampleP).2.2 =
      [EAction.abortA, EAction.drainA, EAction.sleepA 1, EAction.initA] ∧
    EAction.shutdownA ∉ (patch_recover false (fun _ => true) sampleP).2.2 := by
  have h : (patch_recover false (fun _ => true) sampleP).2.2 =
      [EAction.abortA, EAction.drainA, EAction.sleepA 1, EAction.initA] := rfl
  refine ⟨h, ?_⟩
  rw [h]
  simp

/-- The three-attempt retry loop succeeds exactly when one of the first
three construction attempts succeeds. -/
theorem initRetryAux_fst (oc : Nat → Bool) :
    (initRetryAux oc 0 3).1 = (oc 0 || oc 1 || oc 2) := by
  cases h0 : oc 0 <;> cases h1 : oc 1 <;> cases h2 : oc 2 <;>
    simp [initRetryAux, h0, h1, h2]

/-- In the work phase, a failed recovery always breaks the loop. -/
theorem rm_workPhase_recFailed (e : RMEnv) (s : RMState) (lastHC : Int)
    (recAt0 : List Nat) :
    (rm_workPhase e s lastHC recAt0).recFailed = true →
    (rm_workPhase e s lastHC recAt0).cont = false := by
  unfold rm_workPhase
  split
  · simp
  · split
    · split <;> simp
    · simp

/-- In a full `run` iteration, a failed recovery always breaks the loop. -/
theorem rm_iter_recFailed (e : RMEnv) (s : RMState) (lastHC : Int) :
    (rm_iter e s lastHC).recFailed = true →
    (rm_iter e s lastHC).cont = false := by
  unfold rm_iter
  split
  · split
    · exact rm_workPhase_recFailed e s e.now []
    · split
      · exact rm_workPhase_recFailed e _ e.now _
      · simp
  · exact rm_workPhase_recFailed e s lastHC []

/-- In a patch-variant iteration, a failed recovery always breaks the loop. -/
theorem p_iter_recFailed (e : PEnv) (s : PState) :
    (p_iter e s).recFailed = true → (p_iter e s).cont = false := by
  unfold p_iter
  split
  · split <;> simp
  · split
    · split <;> simp
    · split <;> try simp
      split <;> simp

/-- Claim C3 (amended): both recovery procedures return `ok` exactly when
the final reinitialization step runs (no exception before it) and
ultimately succeeds; in the patch variant that step makes up to three
construction attempts (success = some of the first three attempts
succeeds) with a 2-second backoff between consecutive attempts, while the
RecorderManager variant makes a single attempt; and in both supervisor
loops, an iteration whose recovery fails breaks the loop rather than
calling recovery again. -/
theorem recover_ok_iff_reinit_succeeds :
    (∀ (p i : Bool) (s : RMState),
      ((rm_recover p i s).1 = true ↔
        ¬(s.recorder = true ∧ p = true) ∧ i = true)) ∧
    (∀ (p : Bool) (oc : Nat → Bool) (s : PState),
      ((patch_recover p oc s).1 = true ↔
        ¬(s.recorder = true ∧ p = true) ∧ (oc 0 || oc 1 || oc 2) = true)) ∧
    ((initRetryAux (fun _ => false) 0 3).2 =
      [EAction.initA, EAction.sleepA 2, EAction.initA, EAction.sleepA 2,
       EAction.initA]) ∧
    (∀ (e : RMEnv) (s : RMState) (lastHC : Int),
      (rm_iter e s lastHC).recFailed = true →
      (rm_iter e s lastHC).cont = false) ∧
    (∀ (e : PEnv) (s : PState),
      (p_iter e s).recFailed = true → (p_iter e s).cont = false) := by
  refine ⟨?_, ?_, ?_, rm_iter_recFailed, p_iter_recFailed⟩
  · intro p i s
    obtain ⟨rec, st, cf, lat, ip⟩ := s
    cases rec <;> cases p <;> cases i <;>
      simp [rm_recover, initialize_recorder]
  · intro p oc s
    obtain ⟨rec, cf, lat⟩ := s
    have hr : (initialize_recorder_with_retry oc ⟨rec, cf, lat⟩).1 =
        (oc 0 || oc 1 || oc 2) := by
      unfold initialize_recorder_with_retry
      rw [← initRetryAux_fst oc]
      split <;> simp_all
    cases rec <;> cases p <;> simp [patch_recover, hr]
  · rfl

/-- Claim C3 witness: a concrete `run` iteration whose work times out at
the threshold and whose recovery fails, breaking the loop. -/
theorem recover_ok_iff_reinit_succeeds_witness :
    (rm_iter { now := 1, work := WorkOutcome.timedOut, hcRecPre := false,
               hcRecInit := false, wkRecPre := false, wkRecInit := false }
        { recorder := true, stop_recorder := false, consecutive_failures := 2,
          last_activity_time := 0, is_processing := false } 0).cont = false :=
  recover_ok_iff_reinit_succeeds.2.2.2.1
    { now := 1, work := WorkOutcome.timedOut, hcRecPre := false,
      hcRecInit := false, wkRecPre := false, wkRecInit := false }
    { recorder := true, stop_recorder := false, consecutive_failures := 2,
      last_activity_time := 0, is_processing := false } 0 rfl

/-- Claim C3 counterexample: when the single engine construction attempt of
`RecorderManager.recover_recorder` fails, recovery gives up at once — the
trace holds exactly one reinitialization attempt and no retry backoff, not
the claimed up-to-three attempts with 2-second backoffs. -/
theorem rm_recover_single_attempt :
    (rm_recover false false sampleRM).1 = false ∧
    (rm_recover false false sampleRM).2.2 =
      [EAction.abortA, EAction.drainA, EAction.sleepA 1, EAction.shutdownA,
       EAction.sleepA 2, EAction.initA] := ⟨rfl, rfl⟩

/-- `process_text_with_timeout` never changes which engine object is held. -/
theorem ptwt_snd_recorder (o : WorkOutcome) (now : Int) (s : RMState) :
    (process_text_with_timeout o now s).2.recorder = s.recorder := by
  cases o <;> rfl

/-- The work phase never drops a live engine handle. -/
theorem rm_workPhase_recorder (e : RMEnv) (s : RMState) (lastHC : Int)
    (recAt0 : List Nat) (h : s.recorder = true) :
    (rm_workPhase e s lastHC recAt0).s.recorder = true := by
  unfold rm_workPhase
  split
  · rw [ptwt_snd_recorder]; exact h
  · split
    · split <;>
        · exact rm_recover_recorder_mono _ _ _ (by rw [ptwt_snd_recorder]; exact h)
    · rw [ptwt_snd_recorder]; exact h

/-- A full `run` iteration never drops a live engine handle. -/
theorem rm_iter_recorder (e : RMEnv) (s : RMState) (lastHC : Int)
    (h : s.recorder = true) : (rm_iter e s lastHC).s.recorder = true := by
  unfold rm_iter
  split
  · split
    · exact rm_workPhase_recorder e s e.now [] h
    · split
      · exact rm_workPhase_recorder e _ e.now _
          (rm_recover_recorder_mono _ _ _ h)
      · exact rm_recover_recorder_mono _ _ _ h
  · exact rm_workPhase_recorder e s lastHC [] h

/-- The monitored loop never drops a live engine handle. -/
theorem rm_loop_recorder (envs : List RMEnv) :
    ∀ (s : RMState) (lastHC : Int), s.recorder = true →
    (rm_loop envs s lastHC).s.recorder = true := by
  induction envs with
  | nil => intro s lastHC h; exact h
  | cons e rest ih =>
    intro s lastHC h
    unfold rm_loop
    split
    · exact ih _ _ (rm_iter_recorder e s lastHC h)
    · exact rm_iter_recorder e s lastHC h

/-- Claim C6 (amended): after a successful initial engine initialization,
every exit of the monitored loop — stop request (environment exhaustion) or
recovery-failure `break` — reaches `cleanup`, which releases the engine and
then the executor when no cleanup step raises; an exception in the engine
shutdown is caught (never re-raised — `rm_run` still returns) but skips the
executor release; and when the initial initialization fails, `run` returns
before the `try/finally`, so `cleanup` never executes and nothing is
released. -/
theorem run_cleanup_on_loop_exit :
    (∀ (t0 : Int) (envs : List RMEnv),
      (rm_run true t0 envs false false).2 =
        [REvent.engineShutdownEv, REvent.executorShutdownEv]) ∧
    (∀ (t0 : Int) (envs : List RMEnv) (ex : Bool),
      (rm_run true t0 envs true ex).2 = []) ∧
    (∀ (t0 : Int) (envs : List RMEnv) (er ex : Bool),
      (rm_run false t0 envs er ex).2 = []) := by
  refine ⟨?_, ?_, ?_⟩
  · intro t0 envs
    have hrec : (rm_loop envs
        (initialize_recorder true (rm_initial t0)).2 t0).s.recorder = true :=
      rm_loop_recorder envs _ t0 (by rfl)
    unfold rm_run
    rw [if_pos (show (initialize_recorder true (rm_initial t0)).1 = true
      from rfl)]
    show rm_cleanup false false _ =
      [REvent.engineShutdownEv, REvent.executorShutdownEv]
    unfold rm_cleanup
    rw [if_pos hrec]
    simp
  · intro t0 envs ex
    have hrec : (rm_loop envs
        (initialize_recorder true (rm_initial t0)).2 t0).s.recorder = true :=
      rm_loop_recorder envs _ t0 (by rfl)
    unfold rm_run
    rw [if_pos (show (initialize_recorder true (rm_initial t0)).1 = true
      from rfl)]
    show rm_cleanup true ex _ = []
    unfold rm_cleanup
    rw [if_pos hrec]
    simp
  · intro t0 envs er ex
    simp [rm_run, initialize_recorder]

/-- Claim C6 counterexample: when the initial engine initialization fails,
`run` returns without ever invoking `cleanup`, so the worker pool is not
released before the thread exits — contrary to the claim that cleanup
releases both resources on every loop exit including this one. -/
theorem run_init_failure_no_executor_release :
    REvent.executorShutdownEv ∉ (rm_run false 0 [] false false).2 := by
  have h : (rm_run false 0 [] false false).2 = [] := rfl
  rw [h]
  simp

/-- On success, `process_text_with_timeout` leaves the counter at 0. -/
theorem ptwt_fst_true_failures (o : WorkOutcome) (now : Int) (s : RMState)
    (h : (process_text_with_timeout o now s).1 = true) :
    (process_text_with_timeout o now s).2.consecutive_failures = 0 := by
  cases o <;> simp_all [process_text_with_timeout]

/-- One unit of work raises the counter by at most one. -/
theorem ptwt_failures_le (o : WorkOutcome) (now : Int) (s : RMState) :
    (process_text_with_timeout o now s).2.consecutive_failures ≤
      s.consecutive_failures + 1 := by
  cases o <;> simp [process_text_with_timeout, ptwt_entry]

/-- Work-phase invariant: starting below the failure threshold, recovery is
only ever invoked at counter value exactly `max_consecutive_failures`, and
whenever the loop continues the counter is again below the threshold. -/
theorem rm_workPhase_inv (e : RMEnv) (s : RMState) (lastHC : Int)
    (recAt0 : List Nat) (h1 : s.consecutive_failures ≤ 2)
    (hA : ∀ x ∈ recAt0, x = max_consecutive_failures) :
    (∀ x ∈ (rm_workPhase e s lastHC recAt0).recAt,
      x = max_consecutive_failures) ∧
    ((rm_workPhase e s lastHC recAt0).cont = true →
      (rm_workPhase e s lastHC recAt0).s.consecutive_failures ≤ 2) := by
  have hle := ptwt_failures_le e.work e.now s
  unfold rm_workPhase
  split
  next hok =>
    refine ⟨hA, fun _ => ?_⟩
    rw [ptwt_fst_true_failures e.work e.now s hok]
    omega
  next hok =>
    split
    next hthr =>
      have h3 : (process_text_with_timeout e.work e.now s).2.consecutive_failures
          = max_consecutive_failures := by
        simp only [max_consecutive_failures] at hthr ⊢
        omega
      split
      next hrec =>
        constructor
        · intro x hx
          rcases List.mem_append.mp hx with hx | hx
          · exact hA x hx
          · simpa using List.mem_singleton.mp hx ▸ h3
        · intro _
          rw [rm_recover_ok_failures _ _ _ hrec]
          omega
      next hrec =>
        constructor
        · intro x hx
          rcases List.mem_append.mp hx with hx | hx
          · exact hA x hx
          · simpa using List.mem_singleton.mp hx ▸ h3
        · simp
    next hthr =>
      refine ⟨hA, fun _ => ?_⟩
      show (process_text_with_timeout e.work e.now s).2.consecutive_failures ≤ 2
      simp only [max_consecutive_failures] at hthr
      omega

/-- Iteration invariant: starting between units of work and below the
failure threshold, a `run` iteration only ever invokes recovery at counter
value exactly `max_consecutive_failures`, and whenever it continues the
counter is again below the threshold. -/
theorem rm_iter_inv (e : RMEnv) (s : RMState) (lastHC : Int)
    (h1 : s.consecutive_failures ≤ 2) (h2 : s.is_processing = false) :
    (∀ x ∈ (rm_iter e s lastHC).recAt, x = max_consecutive_failures) ∧
    ((rm_iter e s lastHC).cont = true →
      (rm_iter e s lastHC).s.consecutive_failures ≤ 2) := by
  have hok : (health_check e.now s).1 = true :=
    health_check_ok_of e.now s
      (by simp only [max_consecutive_failures]; omega) h2
  unfold rm_iter
  rw [if_pos hok]
  split
  · exact rm_workPhase_inv e s e.now [] h1 (by simp)
  · exact rm_workPhase_inv e s lastHC [] h1 (by simp)

/-- Loop invariant: over any run of the monitored loop started between
units of work and below the failure threshold, every recovery invocation
happens at counter value exactly `max_consecutive_failures`. -/
theorem rm_loop_inv (envs : List RMEnv) :
    ∀ (s : RMState) (lastHC : Int),
      s.consecutive_failures ≤ 2 → s.is_processing = false →
      ∀ x ∈ (rm_loop envs s lastHC).recAt, x = max_consecutive_failures := by
  induction envs with
  | nil =>
    intro s lastHC _ _ x hx
    simp [rm_loop] at hx
  | cons e rest ih =>
    intro s lastHC h1 h2 x hx
    unfold rm_loop at hx
    split at hx
    next hcont =>
      dsimp only at hx
      rcases List.mem_append.mp hx with hx | hx
      · exact (rm_iter_inv e s lastHC h1 h2).1 x hx
      · exact ih (rm_iter e s lastHC).s (rm_iter e s lastHC).lastHC
          ((rm_iter_inv e s lastHC h1 h2).2 hcont)
          (rm_iter_is_processing e s lastHC h2) x hx
    next =>
      exact (rm_iter_inv e s lastHC h1 h2).1 x hx

/-- An iteration whose unit of work times out while the incremented counter
is still below the threshold: no recovery, loop continues, counter up by
one, still between units of work. -/
theorem rm_iter_timeout_small (e : RMEnv) (s : RMState) (lastHC : Int)
    (hw : e.work = WorkOutcome.timedOut) (h2 : s.is_processing = false)
    (h1 : s.consecutive_failures + 1 < 3) :
    (rm_iter e s lastHC).recAt = [] ∧ (rm_iter e s lastHC).cont = true ∧
    (rm_iter e s lastHC).s.consecutive_failures =
      s.consecutive_failures + 1 ∧
    (rm_iter e s lastHC).s.is_processing = false := by
  have hfail : (process_text_with_timeout e.work e.now s).1 = false := by
    rw [hw]; rfl
  have hcnt : (process_text_with_timeout e.work e.now s).2.consecutive_failures
      = s.consecutive_failures + 1 := by
    rw [hw]; rfl
  have hip := ptwt_snd_is_processing e.work e.now s
  have hok : (health_check e.now s).1 = true :=
    health_check_ok_of e.now s
      (by simp only [max_consecutive_failures]; omega) h2
  have hthr : ¬(max_consecutive_failures ≤
      (process_text_with_timeout e.work e.now s).2.consecutive_failures) := by
    rw [hcnt]; simp only [max_consecutive_failures]; omega
  unfold rm_iter rm_workPhase
  rw [if_pos hok]
  split
  · rw [if_neg (by simp [hfail])]
    exact ⟨rfl, rfl, hcnt, hip⟩
  · rw [if_neg (by simp [hfail])]
    exact ⟨rfl, rfl, hcnt, hip⟩

/-- An iteration whose unit of work times out with the counter at 2: the
counter reaches the threshold and recovery is invoked exactly once in the
iteration, whatever its outcome. -/
theorem rm_iter_timeout_hit (e : RMEnv) (s : RMState) (lastHC : Int)
    (hw : e.work = WorkOutcome.timedOut) (h2 : s.is_processing = false)
    (h3 : s.consecutive_failures = 2) :
    (rm_iter e s lastHC).recAt = [max_consecutive_failures] := by
  have hfail : (process_text_with_timeout e.work e.now s).1 = false := by
    rw [hw]; rfl
  have hcnt : (process_text_with_timeout e.work e.now s).2.consecutive_failures
      = max_consecutive_failures := by
    rw [hw]
    show s.consecutive_failures + 1 = max_consecutive_failures
    simp only [max_consecutive_failures]
    omega
  have hok : (health_check e.now s).1 = true :=
    health_check_ok_of e.now s
      (by simp only [max_consecutive_failures]; omega) h2
  have hthr : max_consecutive_failures ≤
      (process_text_with_timeout e.work e.now s).2.consecutive_failures := by
    rw [hcnt]
  unfold rm_iter rm_workPhase
  rw [if_pos hok]
  split
  · rw [if_neg (by simp [hfail])]
    split <;> simp [hcnt]
  · rw [if_neg (by simp [hfail])]
    split <;> simp [hcnt]

/-- Three consecutive timeouts from a fresh counter drive the loop into
recovery exactly once: the first two failures only increment the counter,
the third reaches the threshold and triggers the single recovery. -/
theorem rm_loop_three_timeouts (e1 e2 e3 : RMEnv) (s : RMState) (lastHC : Int)
    (hw1 : e1.work = WorkOutcome.timedOut) (hw2 : e2.work = WorkOutcome.timedOut)
    (hw3 : e3.work = WorkOutcome.timedOut)
    (h0 : s.consecutive_failures = 0) (hp : s.is_processing = false) :
    (rm_loop [e1, e2, e3] s lastHC).recAt.length = 1 := by
  obtain ⟨hA1, hC1, hF1, hP1⟩ :=
    rm_iter_timeout_small e1 s lastHC hw1 hp (by omega)
  obtain ⟨hA2, hC2, hF2, hP2⟩ :=
    rm_iter_timeout_small e2 (rm_iter e1 s lastHC).s
      (rm_iter e1 s lastHC).lastHC hw2 hP1 (by omega)
  have hit := rm_iter_timeout_hit e3
    (rm_iter e2 (rm_iter e1 s lastHC).s (rm_iter e1 s lastHC).lastHC).s
    (rm_iter e2 (rm_iter e1 s lastHC).s (rm_iter e1 s lastHC).lastHC).lastHC
    hw3 hP2 (by omega)
  simp only [rm_loop]
  rw [if_pos hC1, if_pos hC2]
  split <;> simp [hA1, hA2, hit]

/-- In the patch variant, an iteration that reaches the submission (no
stall, counter below threshold) and times out invokes recovery immediately,
once, within that same iteration. -/
theorem p_iter_timeout_recovers (e : PEnv) (s : PState)
    (hstall : e.now - s.last_activity_time ≤ p_transcription_timeout)
    (hthr : s.consecutive_failures < p_max_consecutive_failures)
    (hw : e.work = PWork.timedOut) :
    (p_iter e s).recovers = 1 := by
  unfold p_iter
  rw [if_neg (by omega), if_neg (by omega)]
  simp only [hw]
  split <;> rfl

/-- Claim C2 (amended): in the RecorderManager loop, started between units
of work with the counter below the threshold, every recovery invocation
happens exactly at counter value `max_consecutive_failures` — the counter
never exceeds the threshold before recovery — and three consecutive
timeouts from a fresh counter invoke recovery exactly once; in the patch
variant, by contrast, every timeout that reaches the submission immediately
invokes recovery in the same iteration. -/
theorem rm_loop_threshold_recovery :
    (∀ (envs : List RMEnv) (s : RMState) (lastHC : Int),
      s.consecutive_failures ≤ 2 → s.is_processing = false →
      ∀ x ∈ (rm_loop envs s lastHC).recAt, x = max_consecutive_failures) ∧
    (∀ (e1 e2 e3 : RMEnv) (s : RMState) (lastHC : Int),
      e1.work = WorkOutcome.timedOut → e2.work = WorkOutcome.timedOut →
      e3.work = WorkOutcome.timedOut →
      s.consecutive_failures = 0 → s.is_processing = false →
      (rm_loop [e1, e2, e3] s lastHC).recAt.length = 1) ∧
    (∀ (e : PEnv) (s : PState),
      e.now - s.last_activity_time ≤ p_transcription_timeout →
      s.consecutive_failures < p_max_consecutive_failures →
      e.work = PWork.timedOut →
      (p_iter e s).recovers = 1) :=
  ⟨rm_loop_inv, rm_loop_three_timeouts, p_iter_timeout_recovers⟩

/-- Claim C2 witness: three concrete timed-out cycles from a fresh live
state yield exactly one recovery invocation in the RecorderManager loop. -/
theorem rm_loop_threshold_recovery_witness :
    (rm_loop [sampleEnvT, sampleEnvT, sampleEnvT] sampleRM 0).recAt.length
      = 1 :=
  rm_loop_threshold_recovery.2.1 sampleEnvT sampleEnvT sampleEnvT sampleRM 0
    rfl rfl rfl rfl rfl

/-- Claim C2 counterexample: in the patch variant, three consecutive
timeouts (times 1, 2, 3, recovery succeeding each time) transition into
recovery three times, not once — each timeout triggers its own recovery
attempt. -/
theorem patch_three_timeouts_three_recoveries :
    (p_loop [pEnvAt 1, pEnvAt 2, pEnvAt 3] sampleP).2 = 3 := rfl

/-- For contrast with the patch-variant behaviour refuted in
`patch_recover_success_leaves_counter`: in the RecorderManager, a
completed unit of work and a successful recovery both leave
`consecutive_failures` at 0. -/
theorem rm_reset_on_success_and_recovery (now : Int) (s : RMState)
    (p i : Bool) :
    (process_text_with_timeout WorkOutcome.completed now s).2.consecutive_failures
      = 0 ∧
    ((rm_recover p i s).1 = true →
      (rm_recover p i s).2.1.consecutive_failures = 0) :=
  ⟨rfl, rm_recover_ok_failures p i s⟩
